import Mathlib

/-!
Verification of the real-time voice session orchestrator: a shallow
embedding of the realtime connection hook (`useRealtimeConnection`), the
session coordinator (`VoiceAgentProvider`) and the audition session manager
(`useAuditionSession`), with theorems about tool-call dispatch, the
connection state machine, hint/text messaging, cleanup on connect failure,
audition mutual exclusion and the one-shot greeting.

Machine integers do not occur in this code; strings and lists model the
JSON payloads and event traces directly.  All side effects (navigation
callbacks, channel writes, state updates) are modelled as explicit values
returned by the embedded functions, in the order the source performs them.
-/

namespace VoiceAgent

/-- ConnectionStatus from `types.ts`:
`'disconnected' | 'connecting' | 'connected'`. -/
inductive ConnectionStatus
  | disconnected
  | connecting
  | connected
deriving DecidableEq, Repr

/-- SlideMetadata from `types.ts`. -/
structure SlideMetadata where
  id : String
  title : String
  slideNumber : Nat
  totalSlides : Nat
deriving DecidableEq, Repr

/-- Content part of a conversation item (`input_text` is the only kind the
client ever sends). -/
inductive ContentPart
  | inputText (text : String)
deriving DecidableEq, Repr

/-- Conversation items the client creates: user/assistant messages and
function-call outputs. -/
inductive ConversationItem
  | message (role : String) (content : List ContentPart)
  | functionCallOutput (callId : String) (output : String)
deriving DecidableEq, Repr

/-- Client → server events sent over the data channel (the subset the hook
actually emits). -/
inductive ClientEvent
  | sessionUpdate (instructions : String)
  | conversationItemCreate (item : ConversationItem)
  | responseCreate
deriving DecidableEq, Repr

/-- Items appearing in a completed response's `output` list. -/
inductive ResponseOutputItem
  | functionCall (name : String) (callId : String) (args : Option String)
  | messageItem
deriving DecidableEq, Repr

/-- Server → client events handled by `handleServerEvent` in
`useRealtimeConnection`. -/
inductive ServerEvent
  | sessionCreated (sessionId : String)
  | sessionUpdated
  | responseAudioDelta
  | responseAudioDone
  | responseAudioTranscriptDelta (delta : String)
  | responseAudioTranscriptDone (transcript : String)
  | inputAudioTranscriptionCompleted (transcript : String)
  | inputAudioBufferSpeechStarted
  | responseOutputItemDone (item : ResponseOutputItem)
  | responseDone (output : List ResponseOutputItem)
  | errorEvent (message : String)
  | unhandled (tag : String)
deriving DecidableEq, Repr

/-- An invocation of one of the NavigationCallbacks methods
(`goToNext` / `goToPrevious`). -/
inductive NavAction
  | goToNext
  | goToPrevious
deriving DecidableEq, Repr

namespace TOOL_NAMES

/-- Tool name constant from `tools.ts`. -/
def GO_TO_NEXT_SLIDE : String := "goToNextSlide"

/-- Tool name constant from `tools.ts`. -/
def GO_TO_PREVIOUS_SLIDE : String := "goToPreviousSlide"

end TOOL_NAMES

/-- `JSON.stringify({ success: true, action: "navigated_next" })`. -/
def successNextJson : String :=
  "\x7b\"success\":true,\"action\":\"navigated_next\"\x7d"

/-- `JSON.stringify({ success: true, action: "navigated_previous" })`. -/
def successPreviousJson : String :=
  "\x7b\"success\":true,\"action\":\"navigated_previous\"\x7d"

/-- `JSON.stringify({ success: false, error: "Navigation not available" })`. -/
def navNotAvailableJson : String :=
  "\x7b\"success\":false,\"error\":\"Navigation not available\"\x7d"

/-- `JSON.stringify({ error: `Unknown function: ${name}` })`. -/
def unknownFunctionJson (name : String) : String :=
  "\x7b\"error\":\"Unknown function: " ++ name ++ "\"\x7d"

/-- Observable effects of one `handleFunctionCall` invocation: navigation
callbacks invoked, and events passed to `sendEvent`, in order. -/
structure FunctionCallResult where
  navActions : List NavAction
  sent : List ClientEvent
deriving DecidableEq, Repr

/-- Shallow embedding of `handleFunctionCall` from `useRealtimeConnection`.
`navRegistered` models whether `navigationCallbacksRef.current` is non-null.
The function is total: no branch throws.  It always sends exactly one
`conversation.item.create` carrying a `function_call_output`, then one
`response.create`. -/
def handleFunctionCall (navRegistered : Bool) (name callId : String) :
    FunctionCallResult :=
  let dispatched : List NavAction × String :=
    if name = TOOL_NAMES.GO_TO_NEXT_SLIDE then
      if navRegistered then
        ([NavAction.goToNext], successNextJson)
      else
        ([], navNotAvailableJson)
    else if name = TOOL_NAMES.GO_TO_PREVIOUS_SLIDE then
      if navRegistered then
        ([NavAction.goToPrevious], successPreviousJson)
      else
        ([], navNotAvailableJson)
    else
      ([], unknownFunctionJson name)
  { navActions := dispatched.1
    sent := [ClientEvent.conversationItemCreate
               (ConversationItem.functionCallOutput callId dispatched.2),
             ClientEvent.responseCreate] }

/-- The `for (const item of event.response.output)` loop of the
`response.done` case: each `function_call` item is handed to
`handleFunctionCall` in order; other items are skipped. -/
def harvestFunctionCalls (navRegistered : Bool) :
    List ResponseOutputItem → List NavAction × List ClientEvent
  | [] => ([], [])
  | item :: rest =>
    let tail := harvestFunctionCalls navRegistered rest
    match item with
    | ResponseOutputItem.functionCall name callId _ =>
      let r := handleFunctionCall navRegistered name callId
      (r.navActions ++ tail.1, r.sent ++ tail.2)
    | ResponseOutputItem.messageItem => tail

/-- Observable effects of one `handleServerEvent` invocation. -/
structure DispatchResult where
  navActions : List NavAction
  sent : List ClientEvent
  speaking : Option Bool
  agentTranscript : List (String × Bool)
  userTranscript : List String
  surfacedError : Option String
deriving DecidableEq, Repr

/-- Dispatch result with no observable effect. -/
def DispatchResult.empty : DispatchResult :=
  { navActions := []
    sent := []
    speaking := none
    agentTranscript := []
    userTranscript := []
    surfacedError := none }

/-- Shallow embedding of the `handleServerEvent` switch from
`useRealtimeConnection`.  Function calls are harvested only in the
`response.done` case; `response.output_item.done` is an explicit no-op. -/
def handleServerEvent (navRegistered : Bool) : ServerEvent → DispatchResult
  | ServerEvent.sessionCreated _ => DispatchResult.empty
  | ServerEvent.sessionUpdated => DispatchResult.empty
  | ServerEvent.responseAudioDelta =>
    { DispatchResult.empty with speaking := some true }
  | ServerEvent.responseAudioDone =>
    { DispatchResult.empty with speaking := some false }
  | ServerEvent.responseAudioTranscriptDelta d =>
    { DispatchResult.empty with agentTranscript := [(d, false)] }
  | ServerEvent.responseAudioTranscriptDone t =>
    { DispatchResult.empty with agentTranscript := [(t, true)] }
  | ServerEvent.inputAudioTranscriptionCompleted t =>
    { DispatchResult.empty with userTranscript := [t] }
  | ServerEvent.inputAudioBufferSpeechStarted =>
    { DispatchResult.empty with speaking := some false }
  | ServerEvent.responseOutputItemDone _ => DispatchResult.empty
  | ServerEvent.responseDone output =>
    let h := harvestFunctionCalls navRegistered output
    { DispatchResult.empty with
        speaking := some false
        navActions := h.1
        sent := h.2 }
  | ServerEvent.errorEvent m =>
    { DispatchResult.empty with surfacedError := some m }
  | ServerEvent.unhandled _ => DispatchResult.empty

/-- Navigation dispatches produced by processing a sequence of inbound
events in delivery order. -/
def dispatchedNav (navRegistered : Bool) (events : List ServerEvent) :
    List NavAction :=
  events.foldr (fun e acc => (handleServerEvent navRegistered e).navActions ++ acc) []

/-- Whether an inbound event is a `response.done` completion event. -/
def isResponseDone : ServerEvent → Bool
  | ServerEvent.responseDone _ => true
  | _ => false

/-- Whether a client event is a `conversation.item.create` carrying a
`function_call_output` item. -/
def isFunctionCallOutputEvent : ClientEvent → Bool
  | ClientEvent.conversationItemCreate
      (ConversationItem.functionCallOutput _ _) => true
  | _ => false

/-- Whether a client event is a `response.create` continuation trigger. -/
def isResponseCreate : ClientEvent → Bool
  | ClientEvent.responseCreate => true
  | _ => false

/-- Number of `function_call_output` items in a list of sent events. -/
def countFunctionCallOutputs (events : List ClientEvent) : Nat :=
  (events.filter isFunctionCallOutputEvent).length

/-- Number of `response.create` triggers in a list of sent events. -/
def countResponseCreates (events : List ClientEvent) : Nat :=
  (events.filter isResponseCreate).length

/-- Number of `function_call` items in a response's output list. -/
def countFunctionCallItems (output : List ResponseOutputItem) : Nat :=
  (output.filter fun item =>
    match item with
    | ResponseOutputItem.functionCall _ _ _ => true
    | _ => false).length

lemma countFunctionCallOutputs_append (a b : List ClientEvent) :
    countFunctionCallOutputs (a ++ b) =
      countFunctionCallOutputs a + countFunctionCallOutputs b := by
  simp [countFunctionCallOutputs, List.filter_append]

lemma countResponseCreates_append (a b : List ClientEvent) :
    countResponseCreates (a ++ b) =
      countResponseCreates a + countResponseCreates b := by
  simp [countResponseCreates, List.filter_append]

lemma handleFunctionCall_sent_counts (navRegistered : Bool) (name callId : String) :
    countFunctionCallOutputs (handleFunctionCall navRegistered name callId).sent = 1 ∧
    countResponseCreates (handleFunctionCall navRegistered name callId).sent = 1 := by
  constructor <;> rfl

lemma harvestFunctionCalls_counts (navRegistered : Bool) :
    ∀ output : List ResponseOutputItem,
      countFunctionCallOutputs (harvestFunctionCalls navRegistered output).2 =
        countFunctionCallItems output ∧
      countResponseCreates (harvestFunctionCalls navRegistered output).2 =
        countFunctionCallItems output := by
  intro output
  induction output with
  | nil => exact ⟨rfl, rfl⟩
  | cons item rest ih =>
    cases item with
    | functionCall name callId args =>
      have hc := handleFunctionCall_sent_counts navRegistered name callId
      simp only [harvestFunctionCalls, countFunctionCallOutputs_append,
        countResponseCreates_append, countFunctionCallItems, List.filter_cons]
      simp only [countFunctionCallItems] at ih
      constructor
      · simp [hc.1, ih.1]
        omega
      · simp [hc.2, ih.2]
        omega
    | messageItem =>
      simpa [harvestFunctionCalls, countFunctionCallItems, List.filter_cons]
        using ih

lemma handleServerEvent_nav_empty_of_not_responseDone (navRegistered : Bool) :
    ∀ e : ServerEvent, isResponseDone e = false →
      (handleServerEvent navRegistered e).navActions = [] := by
  intro e h
  cases e <;> simp_all [handleServerEvent, isResponseDone, DispatchResult.empty]

/-- C1 counterexample: for a completed response containing two
function-call items, the bridge sends output₁, trigger, output₂, trigger —
two `response.create` continuation triggers, not one, and the second
output is not sent before the first trigger. -/
theorem c1_counterexample :
    (handleServerEvent true (ServerEvent.responseDone
      [ResponseOutputItem.functionCall "goToNextSlide" "c1" none,
       ResponseOutputItem.functionCall "goToPreviousSlide" "c2" none])).sent =
      [ClientEvent.conversationItemCreate
         (ConversationItem.functionCallOutput "c1" successNextJson),
       ClientEvent.responseCreate,
       ClientEvent.conversationItemCreate
         (ConversationItem.functionCallOutput "c2" successPreviousJson),
       ClientEvent.responseCreate] ∧
    countResponseCreates (handleServerEvent true (ServerEvent.responseDone
      [ResponseOutputItem.functionCall "goToNextSlide" "c1" none,
       ResponseOutputItem.functionCall "goToPreviousSlide" "c2" none])).sent = 2 ∧
    ¬ countResponseCreates (handleServerEvent true (ServerEvent.responseDone
      [ResponseOutputItem.functionCall "goToNextSlide" "c1" none,
       ResponseOutputItem.functionCall "goToPreviousSlide" "c2" none])).sent = 1 := by
  refine ⟨rfl, rfl, by decide⟩

/-- C1 (amended): processing a `response.done` event sends exactly one
`function_call_output` item and exactly one `response.create` continuation
trigger per function-call item in the response's output list (each
output immediately followed by its own trigger); in particular a response
with two function calls yields two outputs and two triggers. -/
theorem c1_per_call_output_and_trigger (navRegistered : Bool)
    (output : List ResponseOutputItem) :
    countFunctionCallOutputs
        (handleServerEvent navRegistered (ServerEvent.responseDone output)).sent =
      countFunctionCallItems output ∧
    countResponseCreates
        (handleServerEvent navRegistered (ServerEvent.responseDone output)).sent =
      countFunctionCallItems output := by
  have h := harvestFunctionCalls_counts navRegistered output
  simpa [handleServerEvent] using h

/-- C2: a `response.output_item.done` event never dispatches a function
call to the NavigationCallbacks (and sends nothing); over any sequence of
inbound events, every navigation dispatch comes from processing a
`response.done` completion event. -/
theorem c2_dispatch_only_at_response_done (navRegistered : Bool)
    (events : List ServerEvent) (item : ResponseOutputItem) :
    (handleServerEvent navRegistered
        (ServerEvent.responseOutputItemDone item)).navActions = [] ∧
    (handleServerEvent navRegistered
        (ServerEvent.responseOutputItemDone item)).sent = [] ∧
    dispatchedNav navRegistered events =
      dispatchedNav navRegistered (events.filter isResponseDone) := by
  refine ⟨rfl, rfl, ?_⟩
  induction events with
  | nil => rfl
  | cons e rest ih =>
    by_cases h : isResponseDone e = true
    · simp [dispatchedNav, List.filter_cons, h] at ih ⊢
      exact ih
    · have h0 : isResponseDone e = false := by
        cases he : isResponseDone e
        · rfl
        · exact absurd he h
      have hn := handleServerEvent_nav_empty_of_not_responseDone navRegistered e h0
      simp [dispatchedNav, List.filter_cons, h0, hn] at ih ⊢
      exact ih

/-- C5 counterexample: with NavigationCallbacks unregistered, the result
payload sent for a recognized navigation call is
`{"success":false,"error":"Navigation not available"}`, which is not the
payload `{"success":false,"error":"navigation unavailable"}` stated by the
claim. -/
theorem c5_counterexample :
    (handleFunctionCall false TOOL_NAMES.GO_TO_NEXT_SLIDE "c1").sent =
      [ClientEvent.conversationItemCreate
         (ConversationItem.functionCallOutput "c1" navNotAvailableJson),
       ClientEvent.responseCreate] ∧
    navNotAvailableJson ≠
      "\x7b\"success\":false,\"error\":\"navigation unavailable\"\x7d" := by
  refine ⟨rfl, by decide⟩

/-- C5 (amended): `handleFunctionCall` is total (never throws) and always
sends exactly one `function_call_output` item.  With NavigationCallbacks
registered, the advance tool invokes `goToNext` exactly once and the
payload is `{"success":true,"action":"navigated_next"}` under the
originating callId, followed by one `response.create` trigger; with no
NavigationCallbacks registered, a recognized navigation name produces
`{"success":false,"error":"Navigation not available"}`; an unrecognized
name (only two names are recognized) produces the structured error payload
`{"error":"Unknown function: <name>"}`. -/
theorem c5_dispatch_results (navRegistered : Bool) (name callId : String) :
    countFunctionCallOutputs (handleFunctionCall navRegistered name callId).sent = 1 ∧
    countResponseCreates (handleFunctionCall navRegistered name callId).sent = 1 ∧
    (navRegistered = true → name = TOOL_NAMES.GO_TO_NEXT_SLIDE →
      (handleFunctionCall navRegistered name callId).navActions =
        [NavAction.goToNext] ∧
      (handleFunctionCall navRegistered name callId).sent =
        [ClientEvent.conversationItemCreate
           (ConversationItem.functionCallOutput callId successNextJson),
         ClientEvent.responseCreate]) ∧
    (navRegistered = false →
      (name = TOOL_NAMES.GO_TO_NEXT_SLIDE ∨ name = TOOL_NAMES.GO_TO_PREVIOUS_SLIDE) →
      (handleFunctionCall navRegistered name callId).navActions = [] ∧
      (handleFunctionCall navRegistered name callId).sent =
        [ClientEvent.conversationItemCreate
           (ConversationItem.functionCallOutput callId navNotAvailableJson),
         ClientEvent.responseCreate]) ∧
    (name ≠ TOOL_NAMES.GO_TO_NEXT_SLIDE → name ≠ TOOL_NAMES.GO_TO_PREVIOUS_SLIDE →
      (handleFunctionCall navRegistered name callId).navActions = [] ∧
      (handleFunctionCall navRegistered name callId).sent =
        [ClientEvent.conversationItemCreate
           (ConversationItem.functionCallOutput callId (unknownFunctionJson name)),
         ClientEvent.responseCreate]) := by
  refine ⟨(handleFunctionCall_sent_counts navRegistered name callId).1,
          (handleFunctionCall_sent_counts navRegistered name callId).2,
          ?_, ?_, ?_⟩
  · rintro rfl rfl
    exact ⟨rfl, rfl⟩
  · rintro rfl (rfl | rfl)
    · exact ⟨rfl, rfl⟩
    · refine ⟨?_, ?_⟩ <;>
        simp [handleFunctionCall, TOOL_NAMES.GO_TO_PREVIOUS_SLIDE,
          TOOL_NAMES.GO_TO_NEXT_SLIDE]
  · intro h1 h2
    refine ⟨?_, ?_⟩ <;>
      simp [handleFunctionCall, h1, h2]

/-- C5 witness: concrete instances of the three branches of
`c5_dispatch_results`. -/
theorem c5_dispatch_results_witness :
    (handleFunctionCall true "goToNextSlide" "c1").navActions =
      [NavAction.goToNext] ∧
    (handleFunctionCall false "goToNextSlide" "c1").sent =
      [ClientEvent.conversationItemCreate
         (ConversationItem.functionCallOutput "c1" navNotAvailableJson),
       ClientEvent.responseCreate] ∧
    (handleFunctionCall true "zoomOut" "c7").sent =
      [ClientEvent.conversationItemCreate
         (ConversationItem.functionCallOutput "c7" (unknownFunctionJson "zoomOut")),
       ClientEvent.responseCreate] :=
  ⟨((c5_dispatch_results true "goToNextSlide" "c1").2.2.1 rfl rfl).1,
   ((c5_dispatch_results false "goToNextSlide" "c1").2.2.2.1 rfl (Or.inl rfl)).2,
   ((c5_dispatch_results true "zoomOut" "c7").2.2.2.2 (by decide) (by decide)).2⟩

/-- Shallow embedding of `sendEvent`: the event is written to the data
channel only when the channel's `readyState` is `"open"`; otherwise a
warning is logged and nothing is written. -/
def sendEvent (dcOpen : Bool) (e : ClientEvent) : List ClientEvent :=
  if dcOpen then [e] else []

/-- Fixed context-marker tag prepended by `sendHint`
(`[Context Update] ${message}`). -/
def contextMarkerTag : String := "[Context Update] "

/-- Shallow embedding of `sendTextMessage`: no-op unless status is
`connected`; otherwise sends a user message item, then a
`response.create` trigger.  Total — no branch throws. -/
def sendTextMessage (status : ConnectionStatus) (dcOpen : Bool)
    (text : String) : List ClientEvent :=
  if status ≠ ConnectionStatus.connected then []
  else
    sendEvent dcOpen
      (ClientEvent.conversationItemCreate
        (ConversationItem.message "user" [ContentPart.inputText text])) ++
    sendEvent dcOpen ClientEvent.responseCreate

/-- Shallow embedding of `sendHint`: silently ignored unless status is
`connected`; otherwise sends one user message item whose text carries the
context-marker tag, and deliberately no `response.create`.  Total — no
branch throws. -/
def sendHint (status : ConnectionStatus) (dcOpen : Bool)
    (message : String) : List ClientEvent :=
  if status ≠ ConnectionStatus.connected then []
  else
    sendEvent dcOpen
      (ClientEvent.conversationItemCreate
        (ConversationItem.message "user"
          [ContentPart.inputText (contextMarkerTag ++ message)]))

/-- Shallow embedding of `updateInstructions`: no-op unless status is
`connected`; otherwise sends one `session.update` event. -/
def updateInstructions (status : ConnectionStatus) (dcOpen : Bool)
    (instructions : String) : List ClientEvent :=
  if status ≠ ConnectionStatus.connected then []
  else sendEvent dcOpen (ClientEvent.sessionUpdate instructions)

/-- C7: whenever the connection state is not `connected`, `sendHint` and
`sendTextMessage` return before reaching `sendEvent` — no channel write
occurs (and, both functions being total, no exception is thrown),
regardless of the channel's own readiness. -/
theorem c7_noop_when_not_connected (status : ConnectionStatus)
    (dcOpen : Bool) (text : String) :
    status ≠ ConnectionStatus.connected →
      sendTextMessage status dcOpen text = [] ∧
      sendHint status dcOpen text = [] := by
  intro h
  constructor <;> simp [sendTextMessage, sendHint, h]

/-- C7 witness: concrete no-op while `connecting`. -/
theorem c7_noop_when_not_connected_witness :
    sendTextMessage ConnectionStatus.connecting true "hello" = [] ∧
    sendHint ConnectionStatus.connecting true "hello" = [] :=
  c7_noop_when_not_connected ConnectionStatus.connecting true "hello"
    (by decide)

/-- C8: while `connected` (channel open), a hint is transmitted as exactly
one user-role `conversation.item.create` whose text is prefixed with the
fixed context-marker tag, and is never followed by a `response.create`
trigger; `sendTextMessage` sends the user item and then a
`response.create` trigger. -/
theorem c8_hint_never_triggers_generation (text : String) :
    sendHint ConnectionStatus.connected true text =
      [ClientEvent.conversationItemCreate
        (ConversationItem.message "user"
          [ContentPart.inputText (contextMarkerTag ++ text)])] ∧
    countResponseCreates (sendHint ConnectionStatus.connected true text) = 0 ∧
    sendTextMessage ConnectionStatus.connected true text =
      [ClientEvent.conversationItemCreate
        (ConversationItem.message "user" [ContentPart.inputText text]),
       ClientEvent.responseCreate] := by
  refine ⟨rfl, rfl, rfl⟩

/-- Lifecycle phase of the data channel created by a `connect` attempt:
none created yet, created but not yet open, open, or closed (cleanup and
remote close both close it, and a closed channel fires no further
open events). -/
inductive ChannelPhase
  | noChannel
  | fresh
  | opened
  | closed
deriving DecidableEq, Repr

/-- State of one transport handle: the React `status` state plus the
data-channel phase that governs which listeners can still fire. -/
structure MachineState where
  status : ConnectionStatus
  channel : ChannelPhase
deriving DecidableEq, Repr

/-- Events that drive the connection state machine of
`useRealtimeConnection`: a `connect` invocation (guarded on
`status !== "disconnected"`), the data-channel `open` and `close`
listeners, the `catch` block of a failed connect, and `disconnect`. -/
inductive TransportEvent
  | connectStart
  | dataChannelOpen
  | dataChannelClose
  | connectFailure
  | disconnectCall
deriving DecidableEq, Repr

/-- Step function of the connection state machine, read off the source:
`connect` warns and returns unless `disconnected`, else sets `connecting`
and creates a fresh channel; the channel's `open` listener sets
`connected`; its `close` listener sets `disconnected`; the `catch` block
and `disconnect` set `disconnected` and close everything via `cleanup`. -/
def transportStep (st : MachineState) : TransportEvent → MachineState
  | TransportEvent.connectStart =>
    if st.status = ConnectionStatus.disconnected then
      { status := ConnectionStatus.connecting, channel := ChannelPhase.fresh }
    else st
  | TransportEvent.dataChannelOpen =>
    if st.channel = ChannelPhase.fresh then
      { status := ConnectionStatus.connected, channel := ChannelPhase.opened }
    else st
  | TransportEvent.dataChannelClose =>
    if st.channel = ChannelPhase.fresh ∨ st.channel = ChannelPhase.opened then
      { status := ConnectionStatus.disconnected, channel := ChannelPhase.closed }
    else st
  | TransportEvent.connectFailure =>
    { status := ConnectionStatus.disconnected, channel := ChannelPhase.closed }
  | TransportEvent.disconnectCall =>
    { status := ConnectionStatus.disconnected, channel := ChannelPhase.closed }

/-- Initial state of a transport handle. -/
def initMachineState : MachineState :=
  { status := ConnectionStatus.disconnected, channel := ChannelPhase.noChannel }

/-- Run the state machine over a list of events from the initial state. -/
def runTransport (events : List TransportEvent) : MachineState :=
  events.foldl transportStep initMachineState

/-- Allowed status edges: stutter, Disconnected→Connecting,
Connecting→Connected, Connecting→Disconnected, Connected→Disconnected. -/
def allowedEdge (s t : ConnectionStatus) : Bool :=
  s = t ||
  (s = ConnectionStatus.disconnected && t = ConnectionStatus.connecting) ||
  (s = ConnectionStatus.connecting && t = ConnectionStatus.connected) ||
  (s = ConnectionStatus.connecting && t = ConnectionStatus.disconnected) ||
  (s = ConnectionStatus.connected && t = ConnectionStatus.disconnected)

/-- Invariant tying the channel phase to the status: a created-but-unopened
channel only exists during an in-flight connect, and an opened channel
means the `open` listener has set `connected`. -/
def MachineInv (st : MachineState) : Prop :=
  (st.channel = ChannelPhase.fresh → st.status = ConnectionStatus.connecting) ∧
  (st.channel = ChannelPhase.opened → st.status = ConnectionStatus.connected)

lemma machineInv_init : MachineInv initMachineState := by
  constructor <;> intro h <;> simp [initMachineState] at h

lemma machineInv_step (st : MachineState) (e : TransportEvent)
    (h : MachineInv st) : MachineInv (transportStep st e) := by
  obtain ⟨h1, h2⟩ := h
  cases e
  case connectStart =>
    simp only [transportStep]
    split_ifs with hg
    · exact ⟨fun _ => rfl, by simp⟩
    · exact ⟨h1, h2⟩
  case dataChannelOpen =>
    simp only [transportStep]
    split_ifs with hg
    · exact ⟨by simp, fun _ => rfl⟩
    · exact ⟨h1, h2⟩
  case dataChannelClose =>
    simp only [transportStep]
    split_ifs with hg
    · exact ⟨by simp, by simp⟩
    · exact ⟨h1, h2⟩
  case connectFailure => exact ⟨by simp [transportStep], by simp [transportStep]⟩
  case disconnectCall => exact ⟨by simp [transportStep], by simp [transportStep]⟩

lemma machineInv_run (events : List TransportEvent) :
    MachineInv (runTransport events) := by
  suffices h : ∀ st, MachineInv st → MachineInv (events.foldl transportStep st) by
    exact h initMachineState machineInv_init
  induction events with
  | nil => intro st h; exact h
  | cons e rest ih =>
    intro st h
    exact ih (transportStep st e) (machineInv_step st e h)

lemma allowedEdge_refl (s : ConnectionStatus) : allowedEdge s s = true := by
  cases s <;> rfl

lemma allowedEdge_to_disconnected (s : ConnectionStatus) :
    allowedEdge s ConnectionStatus.disconnected = true := by
  cases s <;> rfl

lemma allowedEdge_step (st : MachineState) (e : TransportEvent)
    (h : MachineInv st) :
    allowedEdge st.status (transportStep st e).status = true := by
  obtain ⟨h1, h2⟩ := h
  cases e
  case connectStart =>
    simp only [transportStep]
    split_ifs with hg
    · simp [allowedEdge, hg]
    · exact allowedEdge_refl _
  case dataChannelOpen =>
    simp only [transportStep]
    split_ifs with hg
    · simp [allowedEdge, h1 hg]
    · exact allowedEdge_refl _
  case dataChannelClose =>
    simp only [transportStep]
    split_ifs with hg
    · exact allowedEdge_to_disconnected _
    · exact allowedEdge_refl _
  case connectFailure => exact allowedEdge_to_disconnected _
  case disconnectCall => exact allowedEdge_to_disconnected _

/-- C6: along every event sequence on one transport handle, the status
only moves along the edges Disconnected→Connecting, Connecting→Connected,
Connecting→Disconnected, Connected→Disconnected (or stutters); entering
`connected` is only possible from `connecting`; and a `connect` call while
`connecting` or `connected` leaves the state unchanged (the guard logs a
warning and returns). -/
theorem c6_state_machine (events : List TransportEvent) (e : TransportEvent) :
    allowedEdge (runTransport events).status
      (transportStep (runTransport events) e).status = true ∧
    ((transportStep (runTransport events) e).status = ConnectionStatus.connected →
      (runTransport events).status = ConnectionStatus.connecting ∨
      (runTransport events).status = ConnectionStatus.connected) ∧
    ((runTransport events).status ≠ ConnectionStatus.disconnected →
      transportStep (runTransport events) TransportEvent.connectStart =
        runTransport events) := by
  have hinv := machineInv_run events
  refine ⟨allowedEdge_step _ e hinv, ?_, ?_⟩
  · intro hc
    have hedge := allowedEdge_step _ e hinv
    rw [hc] at hedge
    cases hs : (runTransport events).status <;> simp_all [allowedEdge]
  · intro hne
    simp only [transportStep]
    split_ifs with hg
    · exact absurd hg hne
    · rfl

/-- C6 witness: after one `connect` call the machine is `connecting`; the
`open` listener moves it to `connected` along an allowed edge, and a second
`connect` call in that state is ignored. -/
theorem c6_state_machine_witness :
    allowedEdge (runTransport [TransportEvent.connectStart]).status
      (transportStep (runTransport [TransportEvent.connectStart])
        TransportEvent.dataChannelOpen).status = true ∧
    ((runTransport [TransportEvent.connectStart]).status =
        ConnectionStatus.connecting ∨
      (runTransport [TransportEvent.connectStart]).status =
        ConnectionStatus.connected) ∧
    transportStep (runTransport [TransportEvent.connectStart])
      TransportEvent.connectStart = runTransport [TransportEvent.connectStart] := by
  have h := c6_state_machine [TransportEvent.connectStart]
    TransportEvent.dataChannelOpen
  exact ⟨h.1, h.2.1 (by decide), h.2.2 (by decide)⟩

/-- Connect-establishment deadline in milliseconds
(`setTimeout(() => reject(new Error("Connection timeout")), 10000)`). -/
def connectTimeoutMs : Nat := 10000

/-- Where a `connect` attempt can fail (or succeed): the token fetch, the
microphone request, the SDP exchange, the connection-established wait
(timeout or transport failure), or no failure at all. -/
inductive ConnectOutcome
  | tokenFail (message : String)
  | micFail (message : String)
  | sdpFail (statusCode : Nat)
  | connTimeout
  | connFailed (stateName : String)
  | ok
deriving DecidableEq, Repr

/-- Observable effects of a `connect` invocation, in program order. -/
inductive ConnectEff
  | setStatusEff (s : ConnectionStatus)
  | surfaceError (message : String)
  | closeChannel
  | stopTrack
  | closePeer
  | detachSink
deriving DecidableEq, Repr

/-- Whether an effect is one of the four `cleanup` teardown actions. -/
def isCleanupEffect : ConnectEff → Bool
  | ConnectEff.closeChannel => true
  | ConnectEff.stopTrack => true
  | ConnectEff.closePeer => true
  | ConnectEff.detachSink => true
  | _ => false

/-- The four nullable refs of the connection hook, as liveness flags:
`peerConnectionRef`, `dataChannelRef`, the live tracks of
`localStreamRef`, and `audioElementRef.srcObject`. -/
structure ConnectionRefs where
  peerConnection : Bool
  dataChannel : Bool
  liveTracks : Nat
  audioSink : Bool
deriving DecidableEq, Repr

/-- All refs null / no live resource. -/
def ConnectionRefs.empty : ConnectionRefs :=
  { peerConnection := false, dataChannel := false, liveTracks := 0,
    audioSink := false }

/-- Whether every resource of a ref bundle has been released. -/
def ConnectionRefs.isReleased (r : ConnectionRefs) : Bool :=
  !r.dataChannel && r.liveTracks == 0 && !r.peerConnection && !r.audioSink

/-- Teardown actions emitted by `cleanup`, in source order: close the data
channel if present, stop every live local track, close the peer
connection if present, detach the playback sink if present. -/
def cleanupEffects (r : ConnectionRefs) : List ConnectEff :=
  (if r.dataChannel then [ConnectEff.closeChannel] else []) ++
  List.replicate r.liveTracks ConnectEff.stopTrack ++
  (if r.peerConnection then [ConnectEff.closePeer] else []) ++
  (if r.audioSink then [ConnectEff.detachSink] else [])

/-- Ref state after `cleanup`: the channel and peer connection are closed
and nulled, every track is stopped, the sink is detached. -/
def cleanupApply (_r : ConnectionRefs) : ConnectionRefs :=
  ConnectionRefs.empty

/-- Effect trace of the `catch` block of `connect`, in source order:
`setError`/`onError` surface the error, then `setStatus("disconnected")`,
then `cleanup()` over whatever refs had been acquired. -/
def connectFailureTrace (message : String) (acquired : ConnectionRefs) :
    List ConnectEff :=
  [ConnectEff.setStatusEff ConnectionStatus.connecting,
   ConnectEff.surfaceError message,
   ConnectEff.setStatusEff ConnectionStatus.disconnected] ++
  cleanupEffects acquired

/-- Shallow embedding of `connect` from `useRealtimeConnection` as a
function of where the attempt fails.  Returns the resulting status, the
final ref state, and the effect trace.  The guard returns immediately
(warning only) unless the status is `disconnected`.  On the happy path the
refs at each failure point are: nothing before the token fetch; peer
connection and audio sink before the microphone grant; everything
(including `trackCount` live capture tracks) from the SDP exchange on. -/
def connectRun (status : ConnectionStatus) (trackCount : Nat)
    (outcome : ConnectOutcome) :
    ConnectionStatus × ConnectionRefs × List ConnectEff :=
  if status ≠ ConnectionStatus.disconnected then
    (status, ConnectionRefs.empty, [])
  else
    match outcome with
    | ConnectOutcome.tokenFail m =>
      (ConnectionStatus.disconnected,
       cleanupApply ConnectionRefs.empty,
       connectFailureTrace m ConnectionRefs.empty)
    | ConnectOutcome.micFail m =>
      (ConnectionStatus.disconnected,
       cleanupApply { peerConnection := true, dataChannel := false,
                      liveTracks := 0, audioSink := true },
       connectFailureTrace m
         { peerConnection := true, dataChannel := false,
           liveTracks := 0, audioSink := true })
    | ConnectOutcome.sdpFail statusCode =>
      (ConnectionStatus.disconnected,
       cleanupApply { peerConnection := true, dataChannel := true,
                      liveTracks := trackCount, audioSink := true },
       connectFailureTrace ("SDP exchange failed: " ++ toString statusCode)
         { peerConnection := true, dataChannel := true,
           liveTracks := trackCount, audioSink := true })
    | ConnectOutcome.connTimeout =>
      (ConnectionStatus.disconnected,
       cleanupApply { peerConnection := true, dataChannel := true,
                      liveTracks := trackCount, audioSink := true },
       connectFailureTrace "Connection timeout"
         { peerConnection := true, dataChannel := true,
           liveTracks := trackCount, audioSink := true })
    | ConnectOutcome.connFailed stateName =>
      (ConnectionStatus.disconnected,
       cleanupApply { peerConnection := true, dataChannel := true,
                      liveTracks := trackCount, audioSink := true },
       connectFailureTrace ("Connection failed: " ++ stateName)
         { peerConnection := true, dataChannel := true,
           liveTracks := trackCount, audioSink := true })
    | ConnectOutcome.ok =>
      (ConnectionStatus.connected,
       { peerConnection := true, dataChannel := true,
         liveTracks := trackCount, audioSink := true },
       [ConnectEff.setStatusEff ConnectionStatus.connecting,
        ConnectEff.setStatusEff ConnectionStatus.connected])

/-- C4 counterexample: on connect timeout the code surfaces the error and
sets `disconnected` first, and only then runs `cleanup` — no cleanup
action precedes the transition to `disconnected`, contradicting the
claimed ordering (cleanup before setting Disconnected). -/
theorem c4_counterexample :
    (connectRun ConnectionStatus.disconnected 1 ConnectOutcome.connTimeout).2.2 =
      [ConnectEff.setStatusEff ConnectionStatus.connecting,
       ConnectEff.surfaceError "Connection timeout",
       ConnectEff.setStatusEff ConnectionStatus.disconnected,
       ConnectEff.closeChannel,
       ConnectEff.stopTrack,
       ConnectEff.closePeer,
       ConnectEff.detachSink] ∧
    (((connectRun ConnectionStatus.disconnected 1
        ConnectOutcome.connTimeout).2.2).take 3).all
      (fun e => !isCleanupEffect e) = true ∧
    ConnectEff.closeChannel ∈
      (connectRun ConnectionStatus.disconnected 1
        ConnectOutcome.connTimeout).2.2 := by
  refine ⟨rfl, rfl, by decide⟩

/-- C4 (amended): a connect attempt that times out fails with the
connection-timeout error and the 10-second deadline constant; on this and
every other connect failure the manager surfaces the error and sets the
status back to Disconnected, and then performs full cleanup (the only
teardown effects come after those two), leaving zero open capture tracks,
no open channel, no open transport and no attached sink. -/
theorem c4_cleanup_on_failure (trackCount : Nat) (outcome : ConnectOutcome)
    (h : outcome ≠ ConnectOutcome.ok) :
    (connectRun ConnectionStatus.disconnected trackCount outcome).1 =
      ConnectionStatus.disconnected ∧
    (connectRun ConnectionStatus.disconnected trackCount outcome).2.1 =
      ConnectionRefs.empty ∧
    (∃ m, ((connectRun ConnectionStatus.disconnected trackCount
        outcome).2.2).takeWhile (fun e => !isCleanupEffect e) =
      [ConnectEff.setStatusEff ConnectionStatus.connecting,
       ConnectEff.surfaceError m,
       ConnectEff.setStatusEff ConnectionStatus.disconnected]) ∧
    (outcome = ConnectOutcome.connTimeout →
      ConnectEff.surfaceError "Connection timeout" ∈
        (connectRun ConnectionStatus.disconnected trackCount outcome).2.2) ∧
    connectTimeoutMs = 10000 := by
  cases outcome
  case tokenFail m =>
    refine ⟨rfl, rfl, ⟨m, ?_⟩, by intro hc; exact absurd hc (by simp), rfl⟩
    simp [connectRun, connectFailureTrace, cleanupEffects, isCleanupEffect,
      List.takeWhile]
  case micFail m =>
    refine ⟨rfl, rfl, ⟨m, ?_⟩, by intro hc; exact absurd hc (by simp), rfl⟩
    simp [connectRun, connectFailureTrace, cleanupEffects, isCleanupEffect,
      List.takeWhile]
  case sdpFail statusCode =>
    refine ⟨rfl, rfl, ⟨"SDP exchange failed: " ++ toString statusCode, ?_⟩,
      by intro hc; exact absurd hc (by simp), rfl⟩
    simp [connectRun, connectFailureTrace, cleanupEffects, isCleanupEffect,
      List.takeWhile]
  case connTimeout =>
    refine ⟨rfl, rfl, ⟨"Connection timeout", ?_⟩, ?_, rfl⟩
    · simp [connectRun, connectFailureTrace, cleanupEffects, isCleanupEffect,
        List.takeWhile]
    · intro _
      simp [connectRun, connectFailureTrace, cleanupEffects]
  case connFailed stateName =>
    refine ⟨rfl, rfl, ⟨"Connection failed: " ++ stateName, ?_⟩,
      by intro hc; exact absurd hc (by simp), rfl⟩
    simp [connectRun, connectFailureTrace, cleanupEffects, isCleanupEffect,
      List.takeWhile]
  case ok => exact absurd rfl h

/-- C4 witness: the timeout outcome at one capture track. -/
theorem c4_cleanup_on_failure_witness :
    (connectRun ConnectionStatus.disconnected 1 ConnectOutcome.connTimeout).1 =
      ConnectionStatus.disconnected ∧
    (connectRun ConnectionStatus.disconnected 1 ConnectOutcome.connTimeout).2.1 =
      ConnectionRefs.empty ∧
    ConnectEff.surfaceError "Connection timeout" ∈
      (connectRun ConnectionStatus.disconnected 1 ConnectOutcome.connTimeout).2.2 :=
  ⟨(c4_cleanup_on_failure 1 ConnectOutcome.connTimeout (by decide)).1,
   (c4_cleanup_on_failure 1 ConnectOutcome.connTimeout (by decide)).2.1,
   (c4_cleanup_on_failure 1 ConnectOutcome.connTimeout (by decide)).2.2.2.1 rfl⟩

/-- Persona identifiers from `instructions.ts`. -/
inductive PersonaType
  | guide
  | coach
  | expert
  | peer
deriving DecidableEq, Repr

/-- State of the audition session manager (`useAuditionSession`): status,
active persona, current resource refs, and the final resource state of
every previously torn-down session. -/
structure AuditionState where
  status : ConnectionStatus
  activePersona : Option PersonaType
  current : ConnectionRefs
  retired : List ConnectionRefs
deriving DecidableEq, Repr

/-- Initial audition manager state. -/
def initAuditionState : AuditionState :=
  { status := ConnectionStatus.disconnected, activePersona := none,
    current := ConnectionRefs.empty, retired := [] }

/-- Shallow embedding of `startAudition` from `useAuditionSession`: if a
session is already active (`status !== "disconnected"`) its refs are torn
down by `cleanup` first; then status goes to `connecting` with the new
persona; on success the new session's resources are acquired and status
becomes `connected`; on failure the partial acquisitions are cleaned up,
status returns to `disconnected` and the persona is cleared. -/
def startAudition (st : AuditionState) (persona : PersonaType)
    (trackCount : Nat) (outcome : ConnectOutcome) : AuditionState :=
  let st0 :=
    if st.status ≠ ConnectionStatus.disconnected then
      { st with current := cleanupApply st.current,
                retired := cleanupApply st.current :: st.retired }
    else st
  let st1 := { st0 with status := ConnectionStatus.connecting,
                        activePersona := some persona }
  match outcome with
  | ConnectOutcome.ok =>
    { st1 with status := ConnectionStatus.connected,
               current := { peerConnection := true, dataChannel := true,
                            liveTracks := trackCount, audioSink := true } }
  | _ =>
    { st1 with status := ConnectionStatus.disconnected,
               activePersona := none,
               current := cleanupApply st1.current }

/-- Number of resource bundles with any live resource: the current refs
plus any retired session whose resources were not fully released. -/
def liveBundles (st : AuditionState) : Nat :=
  (if st.current.isReleased then 0 else 1) +
  (st.retired.filter (fun r => !r.isReleased)).length

/-- C9: starting a new audition while one is active (Connecting or
Connected) tears the prior one down first with full cleanup — its final
resource state is fully released (tracks stopped, channel closed, peer
closed, sink detached) and recorded — before the new session's resources
are acquired, so afterwards exactly one resource bundle is live and the
new persona is the single active audition. -/
theorem c9_audition_mutual_exclusion (st : AuditionState)
    (persona : PersonaType) (trackCount : Nat)
    (h : st.status = ConnectionStatus.connecting ∨
         st.status = ConnectionStatus.connected)
    (hr : ∀ r ∈ st.retired, r.isReleased = true) :
    (startAudition st persona trackCount ConnectOutcome.ok).retired =
      cleanupApply st.current :: st.retired ∧
    (cleanupApply st.current).isReleased = true ∧
    (startAudition st persona trackCount ConnectOutcome.ok).status =
      ConnectionStatus.connected ∧
    (startAudition st persona trackCount ConnectOutcome.ok).activePersona =
      some persona ∧
    liveBundles (startAudition st persona trackCount ConnectOutcome.ok) = 1 := by
  have hne : st.status ≠ ConnectionStatus.disconnected := by
    rcases h with h | h <;> simp [h]
  have hfilter : st.retired.filter (fun r => !r.isReleased) = [] := by
    rw [List.filter_eq_nil_iff]
    intro r hrmem
    simp [hr r hrmem]
  refine ⟨?_, rfl, ?_, ?_, ?_⟩
  · simp [startAudition, hne]
  · simp [startAudition, hne]
  · simp [startAudition, hne]
  · unfold liveBundles
    rw [show (startAudition st persona trackCount ConnectOutcome.ok).retired =
          cleanupApply st.current :: st.retired from by simp [startAudition, hne]]
    rw [show (startAudition st persona trackCount ConnectOutcome.ok).current =
          { peerConnection := true, dataChannel := true,
            liveTracks := trackCount, audioSink := true } from by
        simp [startAudition, hne]]
    rw [List.filter_cons]
    simp only [cleanupApply]
    rw [show (!ConnectionRefs.empty.isReleased) = false from rfl]
    simp only [Bool.false_eq_true, if_false, hfilter, List.length_nil]
    rfl

/-- C9 witness: a second audition started on top of a connected one. -/
theorem c9_audition_mutual_exclusion_witness :
    (startAudition (startAudition initAuditionState PersonaType.guide 1
        ConnectOutcome.ok) PersonaType.coach 2 ConnectOutcome.ok).retired =
      cleanupApply (startAudition initAuditionState PersonaType.guide 1
        ConnectOutcome.ok).current :: [] ∧
    (startAudition (startAudition initAuditionState PersonaType.guide 1
        ConnectOutcome.ok) PersonaType.coach 2 ConnectOutcome.ok).activePersona =
      some PersonaType.coach ∧
    liveBundles (startAudition (startAudition initAuditionState
        PersonaType.guide 1 ConnectOutcome.ok) PersonaType.coach 2
        ConnectOutcome.ok) = 1 := by
  have h := c9_audition_mutual_exclusion
    (startAudition initAuditionState PersonaType.guide 1 ConnectOutcome.ok)
    PersonaType.coach 2 (by right; rfl)
    (by intro r hrmem; exact absurd hrmem (List.not_mem_nil r))
  refine ⟨?_, h.2.2.2.1, h.2.2.2.2⟩
  exact h.1.trans rfl

/-- Interaction modes from `instructions.ts`. -/
inductive InteractionMode
  | presenter
  | dialogue
  | assistant
deriving DecidableEq, Repr

/-- Greeting style of each persona (`getPersonaConfig(persona).greetingStyle`
from `instructions.ts`). -/
def greetingStyle : PersonaType → String
  | PersonaType.guide => "warmly"
  | PersonaType.coach => "directly"
  | PersonaType.expert => "professionally"
  | PersonaType.peer => "casually"

/-- Greeting prompt built by the greeting effect of `VoiceAgentProvider`
(the `greetingPrompt` record indexed by mode). -/
def greetingPrompt (mode : InteractionMode) (persona : PersonaType)
    (currentSlide : SlideMetadata) : String :=
  match mode with
  | InteractionMode.presenter =>
    "You\x27ve just connected to present. The user is on slide " ++
      toString currentSlide.slideNumber ++ ": \"" ++ currentSlide.title ++
      "\". Greet them " ++ greetingStyle persona ++
      ", then begin presenting this slide."
  | InteractionMode.dialogue =>
    "You\x27ve just connected for a conversation. The user is on slide " ++
      toString currentSlide.slideNumber ++ ": \"" ++ currentSlide.title ++
      "\". Greet them " ++ greetingStyle persona ++
      ", then start a conversation about this slide - ask them a question " ++
      "to kick things off. Remember: this is a dialogue, not a " ++
      "presentation. Draw out their thinking."
  | InteractionMode.assistant =>
    "You\x27ve just connected as an assistant. The user is on slide " ++
      toString currentSlide.slideNumber ++ ": \"" ++ currentSlide.title ++
      "\". Greet them " ++ greetingStyle persona ++
      " and let them know you\x27re here if they have any questions. " ++
      "Don\x27t start explaining - wait for them to ask or comment."

/-- Mode-specific hint text built by `setCurrentSlide` (the
`slideChangeHint` record indexed by mode). -/
def slideChangeHint (mode : InteractionMode) (metadata : SlideMetadata) :
    String :=
  match mode with
  | InteractionMode.presenter =>
    "User navigated to slide " ++ toString metadata.slideNumber ++ " of " ++
      toString metadata.totalSlides ++ ": \"" ++ metadata.title ++
      "\". Transition smoothly to presenting this new slide."
  | InteractionMode.dialogue =>
    "User navigated to slide " ++ toString metadata.slideNumber ++ " of " ++
      toString metadata.totalSlides ++ ": \"" ++ metadata.title ++
      "\". Continue the conversation naturally - perhaps connect this to " ++
      "what you were just discussing, or ask what catches their eye."
  | InteractionMode.assistant =>
    "User navigated to slide " ++ toString metadata.slideNumber ++ " of " ++
      toString metadata.totalSlides ++ ": \"" ++ metadata.title ++
      "\". They\x27re exploring. Don\x27t explain unless they ask - just " ++
      "acknowledge briefly if at all."

/-- Fallback instruction string from `buildCurrentInstructions` when no
slide or no overview is held. -/
def defaultInstructions : String :=
  "You are a helpful presentation assistant. Wait for the presentation to load."

/-- Refs held by `VoiceAgentProvider` that `setCurrentSlide` touches, plus
the connection status it reads. -/
structure CoordinatorState where
  currentSlide : Option SlideMetadata
  slideOverview : List (String × String)
  mode : InteractionMode
  persona : PersonaType
  status : ConnectionStatus
deriving DecidableEq, Repr

/-- Shallow embedding of `buildCurrentInstructions`, parameterized by the
external instruction builder `buildInstructions`, which the spec treats as
an opaque text producer. -/
def buildCurrentInstructions
    (buildInstructions : SlideMetadata → List (String × String) →
      InteractionMode → PersonaType → String)
    (st : CoordinatorState) : String :=
  match st.currentSlide with
  | none => defaultInstructions
  | some slide =>
    if st.slideOverview.length = 0 then defaultInstructions
    else buildInstructions slide st.slideOverview st.mode st.persona

/-- Outbound messages of the Session Coordinator:
an instructions rebuild/push (`updateInstructions` → session-update) or a
Hint (`rawSendHint`). -/
inductive CoordinatorMsg
  | pushInstructions (instructions : String)
  | hint (text : String)
deriving DecidableEq, Repr

/-- Shallow embedding of `setCurrentSlide` from `VoiceAgentProvider`:
record the new slide; if Connected, rebuild instructions and push a
session-update, and — only when a previous slide was held and its
`slideNumber` differs — send the mode-specific slide-change hint. -/
def setCurrentSlide
    (buildInstructions : SlideMetadata → List (String × String) →
      InteractionMode → PersonaType → String)
    (st : CoordinatorState) (metadata : SlideMetadata) :
    CoordinatorState × List CoordinatorMsg :=
  let previousSlide := st.currentSlide
  let st1 := { st with currentSlide := some metadata }
  if st.status = ConnectionStatus.connected then
    let instructions := buildCurrentInstructions buildInstructions st1
    let hints :=
      match previousSlide with
      | some prev =>
        if prev.slideNumber ≠ metadata.slideNumber then
          [CoordinatorMsg.hint (slideChangeHint st1.mode metadata)]
        else []
      | none => []
    (st1, CoordinatorMsg.pushInstructions instructions :: hints)
  else (st1, [])

/-- Sample slide metadata used in the concrete instances below. -/
def slideIntro : SlideMetadata :=
  { id := "s1", title := "Intro", slideNumber := 1, totalSlides := 2 }

/-- Second sample slide metadata used in the concrete instances below. -/
def slideNext : SlideMetadata :=
  { id := "s2", title := "Next", slideNumber := 2, totalSlides := 2 }

/-- Sample coordinator state: connected, holding `slideIntro`. -/
def coordStateIntro : CoordinatorState :=
  { currentSlide := some slideIntro,
    slideOverview := [("s1", "Intro"), ("s2", "Next")],
    mode := InteractionMode.presenter,
    persona := PersonaType.guide,
    status := ConnectionStatus.connected }

/-- Sample coordinator state: connected, holding `slideNext`. -/
def coordStateNext : CoordinatorState :=
  { currentSlide := some slideNext,
    slideOverview := [("s1", "Intro"), ("s2", "Next")],
    mode := InteractionMode.presenter,
    persona := PersonaType.guide,
    status := ConnectionStatus.connected }

/-- C3 counterexample: calling `setCurrentSlide` while Connected with a
slide identical to the held one still sends a session-update (the
instructions push is unconditional when Connected); the claim that neither
a session-update nor a Hint is sent fails. -/
theorem c3_counterexample :
    (setCurrentSlide (fun _ _ _ _ => "INSTR") coordStateIntro slideIntro).2 =
      [CoordinatorMsg.pushInstructions "INSTR"] ∧
    ¬ (setCurrentSlide (fun _ _ _ _ => "INSTR") coordStateIntro
        slideIntro).2 = [] := by
  refine ⟨rfl, by decide⟩

/-- C3 (amended): while Connected, `setCurrentSlide` with a slide whose
`slideNumber` differs from the previously held slide sends exactly one
instructions rebuild/push and exactly one mode-appropriate Hint; calling
it again with the identical slide sends the session-update but no Hint. -/
theorem c3_slide_update_messages
    (buildInstructions : SlideMetadata → List (String × String) →
      InteractionMode → PersonaType → String)
    (st : CoordinatorState) (metadata : SlideMetadata)
    (hconn : st.status = ConnectionStatus.connected) :
    (∀ prev, st.currentSlide = some prev →
      prev.slideNumber ≠ metadata.slideNumber →
      (setCurrentSlide buildInstructions st metadata).2 =
        [CoordinatorMsg.pushInstructions
           (buildCurrentInstructions buildInstructions
             { st with currentSlide := some metadata }),
         CoordinatorMsg.hint (slideChangeHint st.mode metadata)]) ∧
    (st.currentSlide = some metadata →
      (setCurrentSlide buildInstructions st metadata).2 =
        [CoordinatorMsg.pushInstructions
           (buildCurrentInstructions buildInstructions
             { st with currentSlide := some metadata })]) ∧
    (setCurrentSlide buildInstructions st metadata).1.currentSlide =
      some metadata := by
  refine ⟨?_, ?_, ?_⟩
  · intro prev hprev hne
    simp [setCurrentSlide, hconn, hprev, hne]
  · intro hsame
    simp [setCurrentSlide, hconn, hsame]
  · simp [setCurrentSlide, hconn]

/-- C3 witness: a changed slide yields one push and one hint; the
identical slide yields only the push. -/
theorem c3_slide_update_messages_witness :
    (setCurrentSlide (fun _ _ _ _ => "INSTR") coordStateIntro slideNext).2 =
      [CoordinatorMsg.pushInstructions "INSTR",
       CoordinatorMsg.hint
         (slideChangeHint InteractionMode.presenter slideNext)] ∧
    (setCurrentSlide (fun _ _ _ _ => "INSTR") coordStateNext slideNext).2 =
      [CoordinatorMsg.pushInstructions "INSTR"] :=
  ⟨(c3_slide_update_messages (fun _ _ _ _ => "INSTR") coordStateIntro
      slideNext rfl).1 slideIntro rfl (by decide),
   (c3_slide_update_messages (fun _ _ _ _ => "INSTR") coordStateNext
      slideNext rfl).2.1 rfl⟩

/-- State read and written by the greeting effect of `VoiceAgentProvider`. -/
structure GreetingState where
  status : ConnectionStatus
  hasGreeted : Bool
  currentSlide : Option SlideMetadata
  mode : InteractionMode
  persona : PersonaType
deriving DecidableEq, Repr

/-- Events affecting the greeting flow: `startSession` (resets the flag
and starts connecting), the transition to Connected (which runs the
greeting `useEffect`), loss of connection, `setCurrentSlide` (a ref write
that does not re-run the effect), and `endSession` (disconnect and flag
reset). -/
inductive CoordinatorEvent
  | startSessionEv
  | connectionEstablished
  | connectionLost
  | setCurrentSlideEv (metadata : SlideMetadata)
  | endSessionEv
deriving DecidableEq, Repr

/-- The greeting `useEffect` body: when status is `connected` and the
has-greeted flag is unset, consume the flag, and send the mode/persona
greeting only if a slide is currently held. -/
def greetingEffect (st : GreetingState) : GreetingState × List String :=
  if st.status = ConnectionStatus.connected ∧ st.hasGreeted = false then
    let st1 := { st with hasGreeted := true }
    match st.currentSlide with
    | some slide => (st1, [greetingPrompt st.mode st.persona slide])
    | none => (st1, [])
  else (st, [])

/-- Step function of the greeting flow, read off `VoiceAgentProvider`:
`startSession` resets the flag before connecting; reaching Connected runs
the greeting effect; slide updates only write the ref; `endSession`
disconnects and resets the flag. -/
def coordStep (st : GreetingState) :
    CoordinatorEvent → GreetingState × List String
  | CoordinatorEvent.startSessionEv =>
    ({ st with hasGreeted := false,
               status := if st.status = ConnectionStatus.disconnected
                         then ConnectionStatus.connecting else st.status }, [])
  | CoordinatorEvent.connectionEstablished =>
    if st.status = ConnectionStatus.connecting then
      greetingEffect { st with status := ConnectionStatus.connected }
    else (st, [])
  | CoordinatorEvent.connectionLost =>
    ({ st with status := ConnectionStatus.disconnected }, [])
  | CoordinatorEvent.setCurrentSlideEv m =>
    ({ st with currentSlide := some m }, [])
  | CoordinatorEvent.endSessionEv =>
    ({ st with status := ConnectionStatus.disconnected,
               hasGreeted := false }, [])

/-- Run the greeting flow over a list of events, collecting every greeting
message sent. -/
def runCoord (st : GreetingState) :
    List CoordinatorEvent → GreetingState × List String
  | [] => (st, [])
  | e :: rest =>
    let r := coordStep st e
    let rr := runCoord r.1 rest
    (rr.1, r.2 ++ rr.2)

lemma coordStep_greeted_stays (st : GreetingState) (e : CoordinatorEvent)
    (h : st.hasGreeted = true)
    (hs : e ≠ CoordinatorEvent.startSessionEv)
    (he : e ≠ CoordinatorEvent.endSessionEv) :
    (coordStep st e).1.hasGreeted = true ∧ (coordStep st e).2 = [] := by
  cases e
  case startSessionEv => exact absurd rfl hs
  case connectionEstablished =>
    simp only [coordStep]
    split_ifs with hg
    · simp [greetingEffect, h]
    · exact ⟨h, rfl⟩
  case connectionLost => exact ⟨h, rfl⟩
  case setCurrentSlideEv m => exact ⟨h, rfl⟩
  case endSessionEv => exact absurd rfl he

lemma runCoord_no_regreet (es : List CoordinatorEvent) :
    ∀ st : GreetingState, st.hasGreeted = true →
      (∀ e ∈ es, e ≠ CoordinatorEvent.startSessionEv ∧
                 e ≠ CoordinatorEvent.endSessionEv) →
      (runCoord st es).2 = [] := by
  induction es with
  | nil => intro st _ _; rfl
  | cons e rest ih =>
    intro st h hm
    have he := hm e (List.mem_cons_self e rest)
    have hstep := coordStep_greeted_stays st e h he.1 he.2
    have htail := ih (coordStep st e).1 hstep.1
      (fun x hx => hm x (List.mem_cons_of_mem e hx))
    simp only [runCoord]
    rw [hstep.2, htail]
    rfl

/-- C10: when the coordinator reaches Connected with no slide held, the
has-greeted flag is still consumed and no greeting is sent — nor later in
the session, even if a slide is set while still Connected; when a slide is
held at that moment, exactly the one mode/persona greeting is sent; and
the flag is reset only by `startSession` or `endSession`. -/
theorem c10_greeting_once_per_session :
    (∀ st : GreetingState, st.status = ConnectionStatus.connecting →
      st.hasGreeted = false → st.currentSlide = none →
      coordStep st CoordinatorEvent.connectionEstablished =
        ({ st with status := ConnectionStatus.connected,
                   hasGreeted := true }, [])) ∧
    (∀ (st : GreetingState) (slide : SlideMetadata),
      st.status = ConnectionStatus.connecting →
      st.hasGreeted = false → st.currentSlide = some slide →
      coordStep st CoordinatorEvent.connectionEstablished =
        ({ st with status := ConnectionStatus.connected,
                   hasGreeted := true },
         [greetingPrompt st.mode st.persona slide])) ∧
    (∀ (st : GreetingState) (es : List CoordinatorEvent),
      st.hasGreeted = true →
      (∀ e ∈ es, e ≠ CoordinatorEvent.startSessionEv ∧
                 e ≠ CoordinatorEvent.endSessionEv) →
      (runCoord st es).2 = []) ∧
    (∀ (st : GreetingState) (e : CoordinatorEvent),
      st.hasGreeted = true →
      (coordStep st e).1.hasGreeted = false →
      e = CoordinatorEvent.startSessionEv ∨
      e = CoordinatorEvent.endSessionEv) := by
  refine ⟨?_, ?_, ?_, ?_⟩
  · intro st hs hg hn
    simp [coordStep, greetingEffect, hs, hg, hn]
  · intro st slide hs hg hsl
    simp [coordStep, greetingEffect, hs, hg, hsl]
  · intro st es h hm
    exact runCoord_no_regreet es st h hm
  · intro st e h hf
    by_contra hcon
    push_neg at hcon
    have := coordStep_greeted_stays st e h hcon.1 hcon.2
    rw [this.1] at hf
    exact absurd hf (by decide)

/-- C10 witness: concrete instances of the four parts — connecting with no
slide consumes the flag silently, connecting with a slide greets once,
a greeted session stays silent across slide changes, and only
session start/end can reset the flag. -/
theorem c10_greeting_once_per_session_witness :
    coordStep
      { status := ConnectionStatus.connecting, hasGreeted := false,
        currentSlide := none, mode := InteractionMode.dialogue,
        persona := PersonaType.guide }
      CoordinatorEvent.connectionEstablished =
      ({ status := ConnectionStatus.connected, hasGreeted := true,
         currentSlide := none, mode := InteractionMode.dialogue,
         persona := PersonaType.guide }, []) ∧
    coordStep
      { status := ConnectionStatus.connecting, hasGreeted := false,
        currentSlide := some slideIntro,
        mode := InteractionMode.presenter, persona := PersonaType.coach }
      CoordinatorEvent.connectionEstablished =
      ({ status := ConnectionStatus.connected, hasGreeted := true,
         currentSlide := some slideIntro,
         mode := InteractionMode.presenter, persona := PersonaType.coach },
       [greetingPrompt InteractionMode.presenter PersonaType.coach
          slideIntro]) ∧
    (runCoord
      { status := ConnectionStatus.connected, hasGreeted := true,
        currentSlide := none, mode := InteractionMode.dialogue,
        persona := PersonaType.guide }
      [CoordinatorEvent.setCurrentSlideEv slideIntro,
       CoordinatorEvent.connectionEstablished]).2 = [] ∧
    (CoordinatorEvent.endSessionEv = CoordinatorEvent.startSessionEv ∨
     CoordinatorEvent.endSessionEv = CoordinatorEvent.endSessionEv) :=
  ⟨c10_greeting_once_per_session.1 _ rfl rfl rfl,
   c10_greeting_once_per_session.2.1 _ _ rfl rfl rfl,
   c10_greeting_once_per_session.2.2.1 _ _ rfl (by decide),
   c10_greeting_once_per_session.2.2.2
     { status := ConnectionStatus.connected, hasGreeted := true,
       currentSlide := none, mode := InteractionMode.dialogue,
       persona := PersonaType.guide }
     CoordinatorEvent.endSessionEv rfl rfl⟩

end VoiceAgent
